import Mathlib

/-!
Shallow embedding of `sr/robot3/accelerometer_board.py` (the accelerometer
board discovery and command-protocol layer) together with proofs about the
claims of its specification.

The external collaborators (the serial transport, the simulator endpoint
registry, the exit-hook registrar and the logger) are modelled as explicit
parameters and observable outputs:
  * the transport is an `Env`: a function from (port, command) to an optional
    reply line, `none` standing for any transport-level failure (unreachable
    endpoint, timeout, read error) — in the source these are the exceptions
    the `except Exception` handlers catch;
  * warnings written through `logger.warning` become a `List Warning` result;
  * `atexit.register(self._cleanup)` becomes the `cleanupRegistered` flag of
    the handle;
  * `get_simulator_boards('AccelerometerBoard')` becomes the `infos` list
    parameter of the sweep.
-/

namespace SRRobot3

/-- Structured board identity: the four fields filled by the `*IDN?` reply.
Mirrors `BoardIdentity` from `sr.robot3.utils`. -/
structure BoardIdentity where
  manufacturer : String
  board_type : String
  asset_tag : String
  software_version : String
deriving DecidableEq, Repr

/-- Modelled from the spec: the `BoardIdentity` constructor lives in
`sr.robot3.utils`, which is not among the provided source files.  Per the
spec, the default identity has all fields as the empty string. -/
def BoardIdentity.default : BoardIdentity :=
  { manufacturer := "", board_type := "", asset_tag := "", software_version := "" }

/-- Modelled from the spec: positional construction of a `BoardIdentity`
from the colon-separated fields of an identification reply (the
`BoardIdentity(*response.split(':'))` call; the class itself is in
`sr.robot3.utils`, not in the provided sources).  The spec states the
resolver expects a reply of exactly four colon-separated fields and that a
wrong field count surfaces as a construction/parse failure of the identity
value, so any other arity yields `none`. -/
def BoardIdentity.ofParts : List String → Option BoardIdentity
  | [m, b, a, s] =>
    some { manufacturer := m, board_type := b, asset_tag := a, software_version := s }
  | _ => none

/-- Errors of the layer, mirroring the exception taxonomy the module deals
with: `IncorrectBoardError` from `sr.robot3.exceptions`, transport-level
failures raised by `SerialWrapper`, and value-parse failures
(`ValueError`/construction failure) when a reply does not have the
expected shape. -/
inductive BoardError where
  | incorrectBoard (returned_type expected_type : String)
  | transportError
  | parseError
deriving DecidableEq, Repr

/-- The external transport: for a (port, command) pair, either one text
reply line or `none` for any transport-level failure.  Models the
`SerialWrapper.query` collaborator. -/
structure Env where
  query : String → String → Option String

/-- Lift a transport interaction into the error monad: a missing reply is a
transport failure. -/
def Env.rawQuery (env : Env) (port cmd : String) : Except BoardError String :=
  match env.query port cmd with
  | some r => Except.ok r
  | none => Except.error BoardError.transportError

/-- Character-level split on `:` with Python `str.split(':')` semantics:
the empty input gives one empty field, separators at the ends give empty
fields. -/
def splitColonChars : List Char → List (List Char)
  | [] => [[]]
  | c :: rest =>
    if c = ':' then [] :: splitColonChars rest
    else
      match splitColonChars rest with
      | [] => [[c]]
      | g :: gs => (c :: g) :: gs

/-- Python's `response.split(':')` on strings. -/
def splitColon (s : String) : List String :=
  (splitColonChars s.data).map fun cs => String.mk cs

/-- The warnings the module emits through `logger.warning`, one constructor
per call site in the source. -/
inductive Warning where
  | incorrectType (returned_type expected_type : String)
  | manualUnidentified (port : String)
  | simulatorUnidentified (port : String)
  | genericUnidentified (port : String)
  | cleanupFailed (asset_tag : String)
deriving DecidableEq, Repr

/-- `AccelerometerBoard.get_board_type`: the literal board-type tag this
layer accepts. -/
def get_board_type : String := "Accelerometer"

/-- A validated board handle: `AccelerometerBoard.__slots__` plus the
observable effects of construction.  `identity` is `self._identity`,
`serialIdentity` is the identity cached in `self._serial` (set via
`set_identity`), and `cleanupRegistered` records the
`atexit.register(self._cleanup)` call. -/
structure Handle where
  port : String
  identity : BoardIdentity
  serialIdentity : BoardIdentity
  cleanupRegistered : Bool
deriving DecidableEq, Repr

/-- `AccelerometerBoard.identify` as performed during construction: send
the literal `*IDN?` and build a `BoardIdentity` from the colon-separated
reply fields. -/
def identifyQuery (env : Env) (port : String) : Except BoardError BoardIdentity :=
  match env.rawQuery port "*IDN?" with
  | Except.error e => Except.error e
  | Except.ok resp =>
    match BoardIdentity.ofParts (splitColon resp) with
    | some i => Except.ok i
    | none => Except.error BoardError.parseError

/-- `AccelerometerBoard.__init__`: default the initial identity, open the
serial wrapper with it, identify, reject a wrong board type with
`IncorrectBoardError`, otherwise store the resolved identity, push it into
the serial wrapper's cached identity and register the cleanup hook. -/
def init (env : Env) (serial_port : String) (initial_identity : Option BoardIdentity) :
    Except BoardError Handle :=
  match identifyQuery env serial_port with
  | Except.error e => Except.error e
  | Except.ok resolved =>
    if resolved.board_type ≠ get_board_type then
      Except.error (BoardError.incorrectBoard resolved.board_type get_board_type)
    else
      let b0 : Handle :=
        { port := serial_port, identity := resolved,
          serialIdentity := initial_identity.getD BoardIdentity.default,
          cleanupRegistered := false }
      let b1 : Handle := { b0 with serialIdentity := resolved }
      Except.ok { b1 with cleanupRegistered := true }

/-- `AccelerometerBoard._get_valid_board`: attempt construction; on
`IncorrectBoardError` log the type mismatch; on any other failure classify
by the supplied initial identity exactly as the source's `except Exception`
block does (note the `return None` placed inside the
`if initial_identity is not None` block); on success return the board.
Returns the optional handle together with the warnings logged. -/
def getValidBoard (env : Env) (serial_port : String)
    (initial_identity : Option BoardIdentity) : Option Handle × List Warning :=
  match init env serial_port initial_identity with
  | Except.ok board => (some board, [])
  | Except.error (BoardError.incorrectBoard r x) =>
    (none, [Warning.incorrectType r x])
  | Except.error _ =>
    match initial_identity with
    | some i =>
      if i.board_type = "manual" then
        (none, [Warning.manualUnidentified serial_port])
      else if i.manufacturer = "sbot_simulator" then
        (none, [Warning.simulatorUnidentified serial_port])
      else
        (none, [])
    | none => (none, [Warning.genericUnidentified serial_port])

/-- One entry of `get_simulator_boards('AccelerometerBoard')`: the url,
declared type string and declared serial number of a simulated endpoint. -/
structure BoardInfo where
  url : String
  type_str : String
  serial_number : String
deriving DecidableEq, Repr

/-- The synthetic pre-contact identity the sweep builds for a simulated
candidate. -/
def syntheticIdentity (bi : BoardInfo) : BoardIdentity :=
  { manufacturer := "sbot_simulator", board_type := bi.type_str,
    asset_tag := bi.serial_number, software_version := "" }

/-- Python `dict` insertion on an association list: overwrite in place if
the key is present, else append. -/
def insertBoard (m : List (String × Handle)) (k : String) (v : Handle) :
    List (String × Handle) :=
  if m.any fun p => p.1 = k then
    m.map fun p => if p.1 = k then (k, v) else p
  else
    m ++ [(k, v)]

/-- The loop body of `AccelerometerBoard._get_simulator_boards`: validate
one candidate and, on success, insert the handle keyed by its resolved
asset tag. -/
def sweepStep (env : Env) (boards : List (String × Handle)) (bi : BoardInfo) :
    List (String × Handle) :=
  match (getValidBoard env bi.url (some (syntheticIdentity bi))).1 with
  | none => boards
  | some board => insertBoard boards board.identity.asset_tag board

/-- `AccelerometerBoard._get_simulator_boards`: run the validator over the
simulated candidates and fold the successes into a mapping keyed by the
resolved asset tag.  The registry's reply to
`get_simulator_boards('AccelerometerBoard')` is the `infos` parameter. -/
def getSimulatorBoards (env : Env) (infos : List BoardInfo) :
    List (String × Handle) :=
  infos.foldl (sweepStep env) []

/-- `AccelerometerBoard._get_supported_boards`: both the `IN_SIMULATOR`
branch and the real-hardware branch call `_get_simulator_boards`; the
`manual_boards` argument is never read.  `inSimulator` models the
`IN_SIMULATOR` module flag. -/
def getSupportedBoards (env : Env) (infos : List BoardInfo)
    (inSimulator : Bool) (manual_boards : Option (List String)) :
    List (String × Handle) :=
  if inSimulator then getSimulatorBoards env infos
  else getSimulatorBoards env infos

/-- Value of one decimal digit. -/
def digitsToNat (ds : List Char) : Nat :=
  ds.foldl (fun n c => 10 * n + (c.toNat - 48)) 0

/-- Modelled from Python's builtin `float` on plain decimal notation: an
optional sign, an integer part and an optional fractional part, with at
least one digit.  This is the fragment of `float(x)` the wire protocol's
"decimal number" fields use; the value is represented exactly as a
rational. -/
def pyFloat (s : String) : Option ℚ :=
  let withSign : ℚ → List Char → Option ℚ := fun sign rest =>
    let intPart := rest.takeWhile Char.isDigit
    match rest.dropWhile Char.isDigit with
    | [] => if intPart.isEmpty then none else some (sign * digitsToNat intPart)
    | '.' :: frac =>
      if frac.all Char.isDigit && !(intPart.isEmpty && frac.isEmpty) then
        some (sign * ((digitsToNat intPart : ℚ) +
          (digitsToNat frac : ℚ) / (10 : ℚ) ^ frac.length))
      else none
    | _ => none
  match s.data with
  | '-' :: rest => withSign (-1) rest
  | '+' :: rest => withSign 1 rest
  | rest => withSign 1 rest

/-- The list comprehension `[float(x) for x in fields]`: parse each field
in order, failing at the first field `float` rejects. -/
def parseFields : List String → Option (List ℚ)
  | [] => some []
  | f :: fs =>
    match pyFloat f with
    | none => none
    | some v => (parseFields fs).map fun vs => v :: vs

/-- `AccelerometerBoard.acceleration`: query `ACC:READ?` and parse every
colon-separated field as a float, collecting them in reply order into a
list (the source's list comprehension has no arity check); a field that
fails numeric parsing raises, modelled as `parseError`. -/
def acceleration (env : Env) (port : String) : Except BoardError (List ℚ) :=
  match env.rawQuery port "ACC:READ?" with
  | Except.error e => Except.error e
  | Except.ok resp =>
    match parseFields (splitColon resp) with
    | some vs => Except.ok vs
    | none => Except.error BoardError.parseError

/-- `AccelerometerBoard.reset`: query `*RESET` and return the reply. -/
def reset (env : Env) (b : Handle) : Except BoardError String :=
  env.rawQuery b.port "*RESET"

/-- `AccelerometerBoard._cleanup`: best-effort reset; any failure is
swallowed and logged as a warning.  Total by construction, mirroring the
`except Exception` around `self.reset()`. -/
def cleanup (env : Env) (b : Handle) : List Warning :=
  match reset env b with
  | Except.ok _ => []
  | Except.error _ => [Warning.cleanupFailed b.identity.asset_tag]

/-! Concrete environments and inputs used to evaluate the definitions. -/

/-- A transport on which every interaction fails (unreachable endpoint). -/
def envFail : Env := { query := fun _ _ => none }

/-- A supplied pre-contact identity that is neither manual nor
simulator-originated. -/
def idOther : BoardIdentity :=
  { manufacturer := "acme", board_type := "PowerBoard",
    asset_tag := "T0", software_version := "1" }

/-- Another supplied pre-contact identity matching neither classification
rule. -/
def idOther2 : BoardIdentity :=
  { manufacturer := "someco", board_type := "Arduino",
    asset_tag := "T1", software_version := "2" }

/-- A transport whose device identifies as an accelerometer with asset tag
`SN1`. -/
def envIdn : Env :=
  { query := fun _ cmd =>
      if cmd = "*IDN?" then some "Acme:Accelerometer:SN1:1.0" else none }

/-- A transport whose device identifies as a power board. -/
def envPower : Env :=
  { query := fun _ cmd =>
      if cmd = "*IDN?" then some "Acme:Power:T2:1.0" else none }

/-- A transport whose identification reply has only three fields. -/
def envShort : Env :=
  { query := fun _ cmd =>
      if cmd = "*IDN?" then some "Acme:Accelerometer:SN1" else none }

/-- A transport whose acceleration reply has two fields, both numeric. -/
def envAcc2 : Env :=
  { query := fun _ cmd =>
      if cmd = "ACC:READ?" then some "1.0:2.0" else none }

/-- A transport whose acceleration reply is `0.5:1.5`. -/
def envAcc10 : Env :=
  { query := fun _ cmd =>
      if cmd = "ACC:READ?" then some "0.5:1.5" else none }

/-- One simulated candidate whose declared (synthetic) serial number
differs from the asset tag the device itself reports. -/
def infosW : List BoardInfo :=
  [{ url := "url1", type_str := "Accelerometer", serial_number := "SYNTH" }]

/-- The identity `envIdn` resolves to. -/
def identW : BoardIdentity :=
  { manufacturer := "Acme", board_type := "Accelerometer",
    asset_tag := "SN1", software_version := "1.0" }

/-- The handle validation over `envIdn` produces at `url1`. -/
def handleW : Handle :=
  { port := "url1", identity := identW, serialIdentity := identW,
    cleanupRegistered := true }

/-! Helper lemmas shared by the claim theorems. -/

/-- A raw transport query can only fail with a transport error. -/
theorem rawQuery_error {env : Env} {port cmd : String} {e : BoardError}
    (h : env.rawQuery port cmd = Except.error e) : e = BoardError.transportError := by
  unfold Env.rawQuery at h
  cases hq : env.query port cmd <;> rw [hq] at h <;> simp at h
  exact h.symm

/-- Identification can only fail with a transport or a parse error, never
with `incorrectBoard`. -/
theorem identifyQuery_error {env : Env} {port : String} {e : BoardError}
    (h : identifyQuery env port = Except.error e) :
    e = BoardError.transportError ∨ e = BoardError.parseError := by
  unfold identifyQuery at h
  cases hq : env.rawQuery port "*IDN?" with
  | error e0 =>
    rw [hq] at h
    dsimp only at h
    injection h with h
    exact Or.inl (h ▸ rawQuery_error hq)
  | ok resp =>
    rw [hq] at h
    dsimp only at h
    cases hp : BoardIdentity.ofParts (splitColon resp) with
    | none =>
      rw [hp] at h
      dsimp only at h
      injection h with h
      exact Or.inr h.symm
    | some i =>
      rw [hp] at h
      simp at h

/-- A field list of the wrong arity never builds a `BoardIdentity`. -/
theorem ofParts_none {l : List String} (h : l.length ≠ 4) :
    BoardIdentity.ofParts l = none := by
  rcases l with _ | ⟨m, _ | ⟨b, _ | ⟨a, _ | ⟨s, _ | ⟨t, r⟩⟩⟩⟩⟩ <;>
    simp [BoardIdentity.ofParts] at h ⊢

/-- Everything a successful construction guarantees: the stored identity is
the one identification resolved, it was pushed into the serial wrapper's
cache, the cleanup hook was registered, the board type passed the check,
and the handle is bound to the requested port. -/
theorem init_ok_props {env : Env} {port : String} {idOpt : Option BoardIdentity}
    {b : Handle} (h : init env port idOpt = Except.ok b) :
    identifyQuery env port = Except.ok b.identity ∧ b.serialIdentity = b.identity ∧
    b.cleanupRegistered = true ∧ b.identity.board_type = get_board_type ∧
    b.port = port := by
  unfold init at h
  cases hq : identifyQuery env port with
  | error e0 => rw [hq] at h; simp at h
  | ok resolved =>
    rw [hq] at h
    dsimp only at h
    split_ifs at h with hbt
    push_neg at hbt
    injection h with h
    rw [← h]
    exact ⟨rfl, rfl, rfl, hbt, rfl⟩

/-- A handle returned by the validator comes from a successful
construction. -/
theorem gvb_some {env : Env} {port : String} {idOpt : Option BoardIdentity}
    {b : Handle} (h : (getValidBoard env port idOpt).1 = some b) :
    init env port idOpt = Except.ok b := by
  unfold getValidBoard at h
  cases hi : init env port idOpt with
  | ok b0 =>
    rw [hi] at h
    simp at h
    rw [h]
  | error e =>
    rw [hi] at h
    cases e with
    | incorrectBoard r x => simp at h
    | transportError =>
      cases idOpt with
      | none => simp at h
      | some i =>
        simp only at h
        split_ifs at h
    | parseError =>
      cases idOpt with
      | none => simp at h
      | some i =>
        simp only at h
        split_ifs at h

/-- Membership after a Python-dict insertion: the element was already there
or is the inserted pair. -/
theorem mem_insertBoard {m : List (String × Handle)} {k : String} {v : Handle}
    {p : String × Handle} (h : p ∈ insertBoard m k v) : p ∈ m ∨ p = (k, v) := by
  unfold insertBoard at h
  split at h
  · rcases List.mem_map.mp h with ⟨q, hq, hpq⟩
    by_cases hk : q.1 = k
    · rw [if_pos hk] at hpq
      exact Or.inr hpq.symm
    · rw [if_neg hk] at hpq
      exact Or.inl (hpq ▸ hq)
  · rcases List.mem_append.mp h with hq | hq
    · exact Or.inl hq
    · simp at hq
      exact Or.inr hq

/-- The comprehension yields exactly one value per input field. -/
theorem parseFields_length {l : List String} {vs : List ℚ}
    (h : parseFields l = some vs) : vs.length = l.length := by
  induction l generalizing vs with
  | nil =>
    unfold parseFields at h
    injection h with h
    subst h
    rfl
  | cons f fs ih =>
    unfold parseFields at h
    cases hf : pyFloat f with
    | none => rw [hf] at h; simp at h
    | some v =>
      rw [hf] at h
      cases hr : parseFields fs with
      | none => rw [hr] at h; simp at h
      | some ws =>
        rw [hr] at h
        simp at h
        subst h
        simp [ih hr]

/-! Claim theorems. -/

/-- C8: `_get_supported_boards` returns exactly the result of the
simulated-source sweep regardless of the value of the `IN_SIMULATOR` flag —
the real-hardware branch and the simulator branch are extensionally
equal. -/
theorem getSupportedBoards_delegates (env : Env) (infos : List BoardInfo)
    (inSimulator : Bool) (manual_boards : Option (List String)) :
    getSupportedBoards env infos inSimulator manual_boards =
      getSimulatorBoards env infos := by
  cases inSimulator <;> rfl

/-- C9: the result of `_get_supported_boards` is independent of its
`manual_boards` argument: any two values of the parameter give identical
mappings in the same external environment. -/
theorem getSupportedBoards_manual_independent (env : Env) (infos : List BoardInfo)
    (inSimulator : Bool) (mb1 mb2 : Option (List String)) :
    getSupportedBoards env infos inSimulator mb1 =
      getSupportedBoards env infos inSimulator mb2 := rfl

/-- C6: for every failure mode of the reset call performed at handle
disposal, `_cleanup` completes normally — it is total by its type, emits
the warning when reset fails, and emits nothing when reset succeeds. -/
theorem cleanup_nonpropagation (env : Env) (b : Handle) :
    (∀ e, reset env b = Except.error e →
      cleanup env b = [Warning.cleanupFailed b.identity.asset_tag])
    ∧ (∀ r, reset env b = Except.ok r → cleanup env b = []) := by
  constructor
  · intro e h
    unfold cleanup
    rw [h]
  · intro r h
    unfold cleanup
    rw [h]

/-- Witness for C6: on a dead transport, disposal of the `envIdn`-validated
handle completes and logs the cleanup warning. -/
theorem cleanup_nonpropagation_witness :
    cleanup envFail handleW = [Warning.cleanupFailed "SN1"] :=
  (cleanup_nonpropagation envFail handleW).1 BoardError.transportError rfl

/-- C3: construction fails with `IncorrectBoardError{returned, expected}`
iff identification succeeds and the resolved board type differs from the
literal `Accelerometer`; on success the handle stores the resolved
identity, pushes it into the transport's cached identity and registers the
teardown hook. -/
theorem init_incorrect_board_iff (env : Env) (port : String)
    (idOpt : Option BoardIdentity) :
    (∀ r x, init env port idOpt =
        Except.error (BoardError.incorrectBoard r x) ↔
      ∃ i, identifyQuery env port = Except.ok i ∧
        i.board_type ≠ get_board_type ∧ r = i.board_type ∧ x = get_board_type)
    ∧ (∀ b, init env port idOpt = Except.ok b →
      identifyQuery env port = Except.ok b.identity ∧
      b.serialIdentity = b.identity ∧ b.cleanupRegistered = true) := by
  constructor
  · intro r x
    constructor
    · intro h
      unfold init at h
      cases hq : identifyQuery env port with
      | error e0 =>
        rw [hq] at h
        dsimp only at h
        injection h with h
        rcases identifyQuery_error hq with h0 | h0 <;> rw [h0] at h <;> simp at h
      | ok resolved =>
        rw [hq] at h
        dsimp only at h
        split_ifs at h with hbt
        · injection h with h
          injection h with h1 h2
          exact ⟨resolved, rfl, hbt, h1.symm, h2.symm⟩
    · rintro ⟨i, hi, hne, hr, hx⟩
      unfold init
      rw [hi]
      dsimp only
      rw [if_pos hne, hr, hx]
  · intro b h
    exact ⟨(init_ok_props h).1, (init_ok_props h).2.1, (init_ok_props h).2.2.1⟩

/-- Witness for C3: against `envPower`, whose device identifies as a
`Power` board, construction fails with exactly
`IncorrectBoardError("Power", "Accelerometer")`; against `envIdn`
construction succeeds with the resolved identity stored, cached and the
hook registered. -/
theorem init_incorrect_board_iff_witness :
    init envPower "p" none =
      Except.error (BoardError.incorrectBoard "Power" "Accelerometer")
    ∧ identifyQuery envIdn "url1" = Except.ok handleW.identity
    ∧ handleW.serialIdentity = handleW.identity
    ∧ handleW.cleanupRegistered = true := by
  constructor
  · exact ((init_incorrect_board_iff envPower "p" none).1 "Power"
      "Accelerometer").mpr
      ⟨{ manufacturer := "Acme", board_type := "Power", asset_tag := "T2",
          software_version := "1.0" }, rfl, by decide, rfl, rfl⟩
  · exact (init_incorrect_board_iff envIdn "url1" none).2 handleW rfl

/-- C1 counterexample: on an unreachable endpoint with a supplied expected
identity that is neither manual nor simulator-originated, the validator
does return `None` but logs no warning at all, refuting the claim that
every caught failure logs a warning. -/
theorem getValidBoard_silent_case_cex :
    init envFail "p0" (some idOther) = Except.error BoardError.transportError
    ∧ getValidBoard envFail "p0" (some idOther) = (none, []) := ⟨rfl, rfl⟩

/-- C1 (amended): the Candidate Validator never propagates a failure — on
success it returns the constructed handle, and on every construction
failure it returns `None`; a warning is logged in every failure case
except when an expected identity was supplied whose `board_type` is not
`manual` and whose `manufacturer` is not `sbot_simulator`, in which case
`None` is returned silently. -/
theorem getValidBoard_never_raises (env : Env) (port : String)
    (idOpt : Option BoardIdentity) :
    (∀ b, init env port idOpt = Except.ok b →
      getValidBoard env port idOpt = (some b, []))
    ∧ (∀ e, init env port idOpt = Except.error e →
      (getValidBoard env port idOpt).1 = none
      ∧ ((getValidBoard env port idOpt).2 = [] ↔
          (∀ r x, e ≠ BoardError.incorrectBoard r x)
          ∧ ∃ i, idOpt = some i ∧ i.board_type ≠ "manual"
              ∧ i.manufacturer ≠ "sbot_simulator")) := by
  constructor
  · intro b h
    unfold getValidBoard
    rw [h]
  · intro e h
    unfold getValidBoard
    rw [h]
    cases e with
    | incorrectBoard r x =>
      refine ⟨rfl, ?_⟩
      simp only
      constructor
      · intro hempty
        simp at hempty
      · rintro ⟨hno, -⟩
        exact absurd rfl (hno r x)
    | transportError =>
      cases idOpt with
      | none =>
        refine ⟨rfl, ?_⟩
        constructor
        · intro hempty; simp at hempty
        · rintro ⟨-, i, hi, -⟩; simp at hi
      | some i =>
        dsimp only
        split_ifs with h1 h2
        · refine ⟨rfl, ?_⟩
          constructor
          · intro hempty; simp at hempty
          · rintro ⟨-, j, hj, hbt, -⟩
            injection hj with hj
            exact absurd (hj ▸ h1) hbt
        · refine ⟨rfl, ?_⟩
          constructor
          · intro hempty; simp at hempty
          · rintro ⟨-, j, hj, -, hmf⟩
            injection hj with hj
            exact absurd (hj ▸ h2) hmf
        · exact ⟨rfl, iff_of_true rfl
            ⟨fun r x hne => BoardError.noConfusion hne, i, rfl, h1, h2⟩⟩
    | parseError =>
      cases idOpt with
      | none =>
        refine ⟨rfl, ?_⟩
        constructor
        · intro hempty; simp at hempty
        · rintro ⟨-, i, hi, -⟩; simp at hi
      | some i =>
        dsimp only
        split_ifs with h1 h2
        · refine ⟨rfl, ?_⟩
          constructor
          · intro hempty; simp at hempty
          · rintro ⟨-, j, hj, hbt, -⟩
            injection hj with hj
            exact absurd (hj ▸ h1) hbt
        · refine ⟨rfl, ?_⟩
          constructor
          · intro hempty; simp at hempty
          · rintro ⟨-, j, hj, -, hmf⟩
            injection hj with hj
            exact absurd (hj ▸ h2) hmf
        · exact ⟨rfl, iff_of_true rfl
            ⟨fun r x hne => BoardError.noConfusion hne, i, rfl, h1, h2⟩⟩

/-- Witness for C1: concrete failing endpoint with a non-manual,
non-simulator expected identity — the validator returns `None`, and the
warning-emptiness characterisation applies. -/
theorem getValidBoard_never_raises_witness :
    (getValidBoard envFail "p0" (some idOther)).1 = none
    ∧ (getValidBoard envFail "p0" (some idOther)).2 = [] := by
  have h := (getValidBoard_never_raises envFail "p0" (some idOther)).2
    BoardError.transportError rfl
  exact ⟨h.1, h.2.mpr ⟨fun r x hne => BoardError.noConfusion hne,
    idOther, rfl, by decide, by decide⟩⟩

/-- C7 counterexample: a non-`IncorrectBoardError` failure with a supplied
expected identity matching neither the manual rule nor the simulator rule
returns `None` without logging the generic "board-like port" warning — the
generic warning is not the fallback for this case. -/
theorem getValidBoard_generic_warning_cex :
    init envFail "p1" (some idOther2) = Except.error BoardError.transportError
    ∧ (getValidBoard envFail "p1" (some idOther2)).1 = none
    ∧ Warning.genericUnidentified "p1" ∉
        (getValidBoard envFail "p1" (some idOther2)).2 := by
  refine ⟨rfl, rfl, ?_⟩
  intro hmem
  simp [getValidBoard, idOther2, init, identifyQuery, Env.rawQuery, envFail] at hmem

/-- C7 (amended): on a non-`IncorrectBoardError` failure, the generic
"found board-like port … could not be identified" warning is logged
exactly when no expected identity was supplied; when an expected identity
was supplied but matches neither the manual rule nor the simulator rule,
the validator returns `None` with no warning. -/
theorem getValidBoard_fallback (env : Env) (port : String) :
    (∀ e, init env port none = Except.error e →
      (∀ r x, e ≠ BoardError.incorrectBoard r x) →
      getValidBoard env port none = (none, [Warning.genericUnidentified port]))
    ∧ (∀ i e, init env port (some i) = Except.error e →
      (∀ r x, e ≠ BoardError.incorrectBoard r x) →
      i.board_type ≠ "manual" → i.manufacturer ≠ "sbot_simulator" →
      getValidBoard env port (some i) = (none, [])) := by
  constructor
  · intro e h hno
    unfold getValidBoard
    rw [h]
    cases e with
    | incorrectBoard r x => exact absurd rfl (hno r x)
    | transportError => rfl
    | parseError => rfl
  · intro i e h hno h1 h2
    unfold getValidBoard
    rw [h]
    cases e with
    | incorrectBoard r x => exact absurd rfl (hno r x)
    | transportError =>
      dsimp only
      rw [if_neg h1, if_neg h2]
    | parseError =>
      dsimp only
      rw [if_neg h1, if_neg h2]

/-- Witness for C7: concrete inputs exercising both branches — with no
expected identity the generic warning is logged; with the non-matching
expected identity `idOther2` nothing is logged. -/
theorem getValidBoard_fallback_witness :
    getValidBoard envFail "p1" none =
      (none, [Warning.genericUnidentified "p1"])
    ∧ getValidBoard envFail "p1" (some idOther2) = (none, []) := by
  constructor
  · exact (getValidBoard_fallback envFail "p1").1 BoardError.transportError rfl
      fun r x hne => BoardError.noConfusion hne
  · exact (getValidBoard_fallback envFail "p1").2 idOther2
      BoardError.transportError rfl (fun r x hne => BoardError.noConfusion hne)
      (by decide) (by decide)

/-- C5: `identify` sends the literal `*IDN?`; any reply splitting into
exactly four colon-separated fields round-trips positionally into
manufacturer, board type, asset tag and software version, and a reply with
the wrong field count surfaces as a parse failure. -/
theorem identify_round_trip (env : Env) (port resp m b a s : String)
    (hq : env.query port "*IDN?" = some resp) :
    (splitColon resp = [m, b, a, s] →
      identifyQuery env port = Except.ok
        { manufacturer := m, board_type := b, asset_tag := a,
          software_version := s })
    ∧ ((splitColon resp).length ≠ 4 →
      identifyQuery env port = Except.error BoardError.parseError) := by
  have hr : env.rawQuery port "*IDN?" = Except.ok resp := by
    unfold Env.rawQuery
    rw [hq]
  constructor
  · intro hs
    unfold identifyQuery
    rw [hr]
    dsimp only
    rw [hs]
    rfl
  · intro hl
    unfold identifyQuery
    rw [hr]
    dsimp only
    rw [ofParts_none hl]

/-- Witness for C5: the reply `Acme:Accelerometer:SN1:1.0` round-trips
into `identW`, and the three-field reply of `envShort` is rejected as a
parse failure. -/
theorem identify_round_trip_witness :
    identifyQuery envIdn "p" = Except.ok identW
    ∧ identifyQuery envShort "p" = Except.error BoardError.parseError := by
  constructor
  · exact (identify_round_trip envIdn "p" "Acme:Accelerometer:SN1:1.0"
      "Acme" "Accelerometer" "SN1" "1.0" rfl).1 rfl
  · exact (identify_round_trip envShort "p" "Acme:Accelerometer:SN1"
      "" "" "" "" rfl).2 (by decide)

/-- Every entry of an accumulated sweep keeps the key/board-type invariant
if the accumulator does. -/
theorem sweep_inv_aux (env : Env) (infos : List BoardInfo) :
    ∀ acc : List (String × Handle),
      (∀ p ∈ acc, p.1 = p.2.identity.asset_tag ∧
        p.2.identity.board_type = get_board_type) →
      ∀ p ∈ infos.foldl (sweepStep env) acc,
        p.1 = p.2.identity.asset_tag ∧
        p.2.identity.board_type = get_board_type := by
  induction infos with
  | nil => intro acc hacc; simpa using hacc
  | cons bi rest ih =>
    intro acc hacc
    rw [List.foldl_cons]
    apply ih
    intro p hp
    unfold sweepStep at hp
    cases hgv : (getValidBoard env bi.url (some (syntheticIdentity bi))).1 with
    | none => rw [hgv] at hp; exact hacc p hp
    | some board =>
      rw [hgv] at hp
      rcases mem_insertBoard hp with hmem | heq
      · exact hacc p hmem
      · have hprops := init_ok_props (gvb_some hgv)
        rw [heq]
        exact ⟨rfl, hprops.2.2.2.1⟩

/-- Candidates whose validation fails contribute nothing to the sweep. -/
theorem sweep_filter_aux (env : Env) (infos : List BoardInfo) :
    ∀ acc, infos.foldl (sweepStep env) acc =
      (infos.filter fun bi =>
        ((getValidBoard env bi.url (some (syntheticIdentity bi))).1).isSome).foldl
        (sweepStep env) acc := by
  induction infos with
  | nil => intro acc; rfl
  | cons bi rest ih =>
    intro acc
    rw [List.foldl_cons, List.filter_cons]
    cases hgv : (getValidBoard env bi.url (some (syntheticIdentity bi))).1 with
    | none =>
      have hstep : sweepStep env acc bi = acc := by
        unfold sweepStep
        rw [hgv]
      rw [hstep]
      simp only [hgv, Option.isSome_none, Bool.false_eq_true, if_false]
      exact ih acc
    | some board =>
      simp only [hgv, Option.isSome_some, if_true]
      rw [List.foldl_cons]
      exact ih _

/-- C2: every handle in the mapping a Discovery Sweep returns is keyed by
its own resolved post-contact asset tag and has resolved board type
`Accelerometer`; candidates whose validation returned `None` contribute no
entry (filtering them away leaves the result unchanged). -/
theorem sweep_key_invariant (env : Env) (infos : List BoardInfo) :
    (∀ p ∈ getSimulatorBoards env infos,
      p.1 = p.2.identity.asset_tag ∧
      p.2.identity.board_type = get_board_type)
    ∧ getSimulatorBoards env infos =
      getSimulatorBoards env (infos.filter fun bi =>
        ((getValidBoard env bi.url (some (syntheticIdentity bi))).1).isSome) := by
  constructor
  · exact sweep_inv_aux env infos [] (by simp)
  · exact sweep_filter_aux env infos []

/-- Witness for C2: the single candidate of `infosW` is declared with
synthetic serial `SYNTH` but the device reports asset tag `SN1`; the sweep
result holds one handle, keyed by the resolved tag `SN1`, with board type
`Accelerometer`. -/
theorem sweep_key_invariant_witness :
    ("SN1", handleW) ∈ getSimulatorBoards envIdn infosW
    ∧ "SN1" = handleW.identity.asset_tag
    ∧ handleW.identity.board_type = get_board_type := by
  have hmem : ("SN1", handleW) ∈ getSimulatorBoards envIdn infosW := by decide
  exact ⟨hmem, (sweep_key_invariant envIdn infosW).1 ("SN1", handleW) hmem⟩

/-- C4: evaluating `acceleration` on the two-field reply `1.0:2.0` — the
input the claim says must fail with a parse error — instead succeeds with
the two-element list of parsed values, because the source performs no
arity check on the reply. -/
theorem acceleration_wrong_arity_succeeds :
    acceleration envAcc2 "p" = Except.ok [1, 2] := by
  have h1 : pyFloat "1.0" = some 1 := by
    show some ((1 : ℚ) * ((1 : ℚ) + (0 : ℚ) / (10 : ℚ) ^ (1 : ℕ))) = some 1
    norm_num
  have h2 : pyFloat "2.0" = some 2 := by
    show some ((1 : ℚ) * ((2 : ℚ) + (0 : ℚ) / (10 : ℚ) ^ (1 : ℕ))) = some 2
    norm_num
  have hr : envAcc2.rawQuery "p" "ACC:READ?" = Except.ok "1.0:2.0" := rfl
  have hs : splitColon "1.0:2.0" = ["1.0", "2.0"] := rfl
  unfold acceleration
  rw [hr]
  dsimp only
  rw [hs]
  simp [parseFields, h1, h2]

/-- C10: whenever every colon-separated field of the `ACC:READ?` reply
parses as a decimal number, `acceleration` succeeds with one value per
field in reply order, whatever the field count, returned as a list. -/
theorem acceleration_parses_all_fields (env : Env) (port resp : String)
    (vs : List ℚ) (hq : env.query port "ACC:READ?" = some resp)
    (hp : parseFields (splitColon resp) = some vs) :
    acceleration env port = Except.ok vs ∧
    vs.length = (splitColon resp).length := by
  have hr : env.rawQuery port "ACC:READ?" = Except.ok resp := by
    unfold Env.rawQuery
    rw [hq]
  constructor
  · unfold acceleration
    rw [hr]
    dsimp only
    rw [hp]
  · exact parseFields_length hp

/-- Witness for C10: the two-field reply `0.5:1.5` yields the two-element
list of its parsed values. -/
theorem acceleration_parses_all_fields_witness :
    acceleration envAcc10 "p" = Except.ok [(1 : ℚ)/2, 3/2]
    ∧ ([(1 : ℚ)/2, 3/2] : List ℚ).length = (splitColon "0.5:1.5").length := by
  have h1 : pyFloat "0.5" = some (1/2) := by
    show some ((1 : ℚ) * ((0 : ℚ) + (5 : ℚ) / (10 : ℚ) ^ (1 : ℕ))) = some (1/2)
    norm_num
  have h2 : pyFloat "1.5" = some (3/2) := by
    show some ((1 : ℚ) * ((1 : ℚ) + (5 : ℚ) / (10 : ℚ) ^ (1 : ℕ))) = some (3/2)
    norm_num
  have hs : splitColon "0.5:1.5" = ["0.5", "1.5"] := rfl
  have hp : parseFields (splitColon "0.5:1.5") = some [1/2, 3/2] := by
    rw [hs]
    simp [parseFields, h1, h2]
  exact acceleration_parses_all_fields envAcc10 "p" "0.5:1.5" [1/2, 3/2] rfl hp

end SRRobot3
